import Mathlib

/-!
Shallow embedding of `src/app.js` (class `GravityScene` and its handlers).

The file models the orchestration state of one `GravityScene`: the visual
scene (a set of mesh handles), the physics world (a set of body handles,
a gravity vector, contact materials), the camera/renderer parameters and
the mutable list of active balls.  The two external libraries (rendering
and physics) are not modelled: rendering has no effect on the modelled
state, and the physics step `world.step(1/60, delta)` is abstracted as an
arbitrary function on the body states of the balls, passed to `animate`
as a parameter.  Numeric values (JS doubles) are modelled as rationals.

Handles: meshes and bodies are identified by natural-number ids drawn
from the counter `nextId`; membership of an id in `sceneMeshes`
(resp. `worldBodies`) models the mesh being in the THREE scene (resp. the
body being in the CANNON world).  JS object identity of a reused mesh or
body object is id equality.
-/

namespace GravityApp

/-- A 3-component vector (THREE.Vector3 / CANNON.Vec3), components as rationals. -/
structure Vec3 where
  x : ℚ
  y : ℚ
  z : ℚ
  deriving DecidableEq, Repr

/-- A quaternion (THREE.Quaternion / CANNON.Quaternion). -/
structure Quat where
  x : ℚ
  y : ℚ
  z : ℚ
  w : ℚ
  deriving DecidableEq, Repr

/-- The identity quaternion, the default orientation of a fresh mesh or body. -/
def Quat.identity : Quat := ⟨0, 0, 0, 1⟩

/-- The zero vector, the default position and velocity of a fresh mesh or body. -/
def Vec3.zero : Vec3 := ⟨0, 0, 0⟩

/-- Squared Euclidean norm.  The source computes
`ball.body.velocity.length()` (the nonnegative square root of this
quantity) and compares it with the threshold `0.1`; since both sides are
nonnegative, `length < 0.1` holds iff `lengthSq < 0.1 ^ 2 = 1/100`, which
is how the threshold test is embedded, keeping the model inside `ℚ`
(see `lengthSq_lt_iff_length_lt` below). -/
def Vec3.lengthSq (v : Vec3) : ℚ := v.x * v.x + v.y * v.y + v.z * v.z

/-- State of a THREE mesh that the loop can mutate: position and orientation. -/
structure MeshState where
  position : Vec3
  quaternion : Quat
  deriving DecidableEq, Repr

/-- State of a CANNON body as used by `app.js`: transform, velocity and the
construction parameters set in `addBall` (mass, linear damping, sphere radius
and the material handle). -/
structure BodyState where
  position : Vec3
  quaternion : Quat
  velocity : Vec3
  mass : ℚ
  linearDamping : ℚ
  radius : ℚ
  material : Nat
  deriving DecidableEq, Repr

/-- One entry of `this.balls`: `{mesh, body, done}`.  The mesh and body
objects are split into an id (identity in the scene / world) and their
mutable state. -/
structure Ball where
  meshId : Nat
  mesh : MeshState
  bodyId : Nat
  body : BodyState
  done : Bool
  deriving DecidableEq, Repr

/-- A CANNON.ContactMaterial: the two material handles plus friction and
restitution. -/
structure ContactMat where
  matA : Nat
  matB : Nat
  friction : ℚ
  restitution : ℚ
  deriving DecidableEq, Repr

/-- The modelled state of one `GravityScene` instance. -/
structure GravityScene where
  /-- Models `this.gravityValue`. -/
  gravityValue : ℚ
  /-- Models `this.camera.aspect`. -/
  cameraAspect : ℚ
  /-- Width set by `this.renderer.setSize`. -/
  rendererWidth : ℚ
  /-- Height set by `this.renderer.setSize`. -/
  rendererHeight : ℚ
  /-- Ids of the meshes currently added to `this.scene` (light, ground, balls). -/
  sceneMeshes : List Nat
  /-- Models `this.groundMesh.position.y`. -/
  groundMeshY : ℚ
  /-- Models `this.world.gravity`. -/
  gravity : Vec3
  /-- Ids of the bodies currently added to `this.world` (ground, balls). -/
  worldBodies : List Nat
  /-- Models `this.groundBody.position.y`. -/
  groundBodyY : ℚ
  /-- Models `this.world.solver.iterations`. -/
  solverIterations : Nat
  /-- Handle of `this.groundMaterial`. -/
  groundMaterial : Nat
  /-- Handle of `this.ballMaterial`. -/
  ballMaterial : Nat
  /-- The contact materials added to the world in the constructor. -/
  contactMaterials : List ContactMat
  /-- Models `this.ballRadius`. -/
  ballRadius : ℚ
  /-- Models `this.balls`. -/
  balls : List Ball
  /-- Fresh-id counter for mesh and body handles. -/
  nextId : Nat
  deriving DecidableEq, Repr

namespace GravityScene

/-- The handler `onWindowResize` (src/app.js lines 97-103): reads the container client
size `w × h`, sets the camera aspect to `w / h` and the renderer size to
`(w, h)`.  `camera.updateProjectionMatrix()` has no modelled state. -/
def onWindowResize (s : GravityScene) (w h : ℚ) : GravityScene :=
  { s with cameraAspect := w / h, rendererWidth := w, rendererHeight := h }

/-- The `GravityScene` constructor (src/app.js lines 5-95) for a container of
client size `w × h` and the given `gravityValue`.  Mesh id 0 is the light,
mesh id 1 the ground mesh, body id 2 the ground body; material handle 0 is
`groundMaterial` and 1 is `ballMaterial`.  The constructor ends by calling
`onWindowResize()`. -/
def init (w h gravityValue : ℚ) : GravityScene :=
  onWindowResize
    { gravityValue := gravityValue
      cameraAspect := w / h
      rendererWidth := w
      rendererHeight := h
      sceneMeshes := [0, 1]
      groundMeshY := 1
      gravity := ⟨0, -gravityValue, 0⟩
      worldBodies := [2]
      groundBodyY := 1
      solverIterations := 10
      groundMaterial := 0
      ballMaterial := 1
      contactMaterials := [⟨1, 0, 2/5, 4/5⟩, ⟨1, 1, 3/10, 9/10⟩]
      ballRadius := 1
      balls := []
      nextId := 3 } w h

/-- The change handler of the gravity input control (src/app.js lines 85-91).
`parsed` is the result of `parseFloat(e.target.value)`: `some v` when the
input parses to the number `v`, `none` when it yields `NaN`.  On a numeric
value the handler stores it in `gravityValue` and overwrites the whole world
gravity vector with `(0, -v, 0)`; on `NaN` it does nothing. -/
def gravityInputChange (s : GravityScene) (parsed : Option ℚ) : GravityScene :=
  match parsed with
  | some val => { s with gravityValue := val, gravity := ⟨0, -val, 0⟩ }
  | none => s

/-- The click handler `addBall` (src/app.js lines 105-126): creates a fresh mesh (added to the
scene) and a fresh body with mass 5, position `(0, 8, 0)`, linear damping
0.31, sphere radius `this.ballRadius` and material `this.ballMaterial`
(added to the world), and pushes `{mesh, body, done: false}` onto
`this.balls`. -/
def addBall (s : GravityScene) : GravityScene :=
  let ballMesh : MeshState := { position := Vec3.zero, quaternion := Quat.identity }
  let ballBody : BodyState :=
    { position := ⟨0, 8, 0⟩
      quaternion := Quat.identity
      velocity := Vec3.zero
      mass := 5
      linearDamping := 31/100
      radius := s.ballRadius
      material := s.ballMaterial }
  { s with
    sceneMeshes := s.sceneMeshes ++ [s.nextId]
    worldBodies := s.worldBodies ++ [s.nextId + 1]
    balls := s.balls ++ [⟨s.nextId, ballMesh, s.nextId + 1, ballBody, false⟩]
    nextId := s.nextId + 2 }

/-- The effect of the external physics step on one ball entry: the library
overwrites the body state, everything else (ids, mesh, done flag) is
untouched. -/
def stepBall (step : BodyState → BodyState) (b : Ball) : Ball :=
  { b with body := step b.body }

/-- The effect of `this.world.step(1/60, delta)` on the modelled state: the
physics library advances every body of the world; for the balls this is an
arbitrary external update `step` of each body state (the static ground body
and the gravity vector are not modified by the model). -/
def stepWorld (step : BodyState → BodyState) (s : GravityScene) : GravityScene :=
  { s with balls := s.balls.map (stepBall step) }

/-- The mesh-to-physics sync of the loop body (src/app.js lines 137-138):
`ball.mesh.position.copy(ball.body.position)` and
`ball.mesh.quaternion.copy(ball.body.quaternion)`. -/
def syncBall (b : Ball) : Ball :=
  { b with mesh := { position := b.body.position, quaternion := b.body.quaternion } }

/-- The removal test of the loop body (src/app.js lines 142-145):
`!ball.done && velocity < 0.1 && nearGround`, where `velocity` is
`ball.body.velocity.length()` (embedded as the equivalent squared
comparison, see `Vec3.lengthSq`) and `nearGround` is
`ball.body.position.y <= radius + 1`. -/
def shouldRemove (radius : ℚ) (b : Ball) : Bool :=
  !b.done && decide (b.body.velocity.lengthSq < 1/100)
    && decide (b.body.position.y ≤ radius + 1)

/-- One iteration of the update loop of `animate` at index `i`
(src/app.js lines 133-154): syncs the mesh of `this.balls[i]` to its body,
then, if the removal test fires, sets `ball.done = true`, removes the mesh
from the scene and the body from the world, and splices index `i` out of
`this.balls`. -/
def animateTickAt (s : GravityScene) (i : Nat) : GravityScene :=
  match s.balls[i]? with
  | none => s
  | some ball =>
    if shouldRemove s.ballRadius (syncBall ball) then
      { s with
        sceneMeshes := s.sceneMeshes.erase (syncBall ball).meshId
        worldBodies := s.worldBodies.erase (syncBall ball).bodyId
        balls := ((s.balls.set i { syncBall ball with done := true }).eraseIdx i) }
    else
      { s with balls := s.balls.set i (syncBall ball) }

/-- The back-to-front loop `for(let i = this.balls.length - 1; i >= 0; i--)`:
`animateLoop s n` runs the loop body at indices `n-1, n-2, ..., 0`. -/
def animateLoop : GravityScene → Nat → GravityScene
  | s, 0 => s
  | s, n + 1 => animateLoop (animateTickAt s n) n

/-- The frame callback `animate` (src/app.js lines 128-157): steps the physics world (the
external update `step`), then runs the update loop over all balls back to
front.  The final `renderer.render` call draws the scene and changes no
modelled state. -/
def animate (step : BodyState → BodyState) (s : GravityScene) : GravityScene :=
  animateLoop (stepWorld step s) (stepWorld step s).balls.length

/-- Removing the handles (under the projection `f`) of the balls of
`removed` from the handle list `l`, in back-to-front order: the loop visits
the highest index first, so the handle of the last removed ball is erased
first.  `foldr` applies the erase of the last element of `removed`
innermost, i.e. first. -/
def removeHandles (f : Ball → Nat) (removed : List Ball) (l : List Nat) : List Nat :=
  removed.foldr (fun b m => m.erase (f b)) l

/-- The handle invariant of the claims: every active ball owns exactly one
mesh handle in the scene and exactly one body handle in the world (distinct
across balls, each present in the respective handle list, which itself has
no duplicates), no handle in either subsystem is orphaned (each is the
light, the ground, or belongs to an active ball), and every handle is below
the fresh-id counter. -/
def HandleInvariant (s : GravityScene) : Prop :=
  (s.balls.map Ball.meshId).Nodup ∧
  (s.balls.map Ball.bodyId).Nodup ∧
  s.sceneMeshes.Nodup ∧
  s.worldBodies.Nodup ∧
  (∀ b ∈ s.balls, b.meshId ∈ s.sceneMeshes) ∧
  (∀ b ∈ s.balls, b.bodyId ∈ s.worldBodies) ∧
  (∀ m ∈ s.sceneMeshes, m = 0 ∨ m = 1 ∨ ∃ b ∈ s.balls, b.meshId = m) ∧
  (∀ m ∈ s.worldBodies, m = 2 ∨ ∃ b ∈ s.balls, b.bodyId = m) ∧
  (∀ m ∈ s.sceneMeshes, m < s.nextId) ∧
  (∀ m ∈ s.worldBodies, m < s.nextId)

/-- Every ball of the active collection still has `done = false`. -/
def AllActive (s : GravityScene) : Prop := ∀ b ∈ s.balls, b.done = false

/-- The world gravity vector is `(0, -gravityValue, 0)` for the stored
`gravityValue`; in particular its horizontal components are zero. -/
def GravityAligned (s : GravityScene) : Prop :=
  s.gravity = ⟨0, -s.gravityValue, 0⟩

/-- Example external physics step that brings a ball to rest on the ground:
position `(0, 3/2, 0)` and zero velocity. -/
def exStepSettle : BodyState → BodyState := fun bd =>
  { bd with position := ⟨0, 3/2, 0⟩, velocity := Vec3.zero }

/-- Example external physics step that leaves a ball flying: position
`(0, 5, 0)` and velocity `(3, 0, 0)`. -/
def exStepFly : BodyState → BodyState := fun bd =>
  { bd with position := ⟨0, 5, 0⟩, velocity := ⟨3, 0, 0⟩ }

/-- Example scene: a 4 × 3 container with Earth gravity 9.8 and one ball
added by a click. -/
def exScene : GravityScene := addBall (init 4 3 (49/5))

/-- The single ball of `exScene`, written out. -/
def exBall : Ball :=
  { meshId := 3
    mesh := { position := Vec3.zero, quaternion := Quat.identity }
    bodyId := 4
    body := { position := ⟨0, 8, 0⟩, quaternion := Quat.identity, velocity := Vec3.zero,
              mass := 5, linearDamping := 31/100, radius := 1, material := 1 }
    done := false }

instance (s : GravityScene) : Decidable (AllActive s) := by
  unfold AllActive; infer_instance

instance (s : GravityScene) : Decidable (HandleInvariant s) := by
  unfold HandleInvariant; infer_instance

instance (s : GravityScene) : Decidable (GravityAligned s) := by
  unfold GravityAligned; infer_instance

theorem removeHandles_nil (f : Ball → Nat) (l : List Nat) :
    removeHandles f [] l = l := rfl

theorem removeHandles_append_singleton (f : Ball → Nat) (A : List Ball) (b : Ball)
    (l : List Nat) :
    removeHandles f (A ++ [b]) l = removeHandles f A (l.erase (f b)) := by
  simp [removeHandles]

/-- The sync writes only the mesh transform, so the removal test gives the
same verdict on the synced ball as on the unsynced one. -/
theorem shouldRemove_syncBall (r : ℚ) (b : Ball) :
    shouldRemove r (syncBall b) = shouldRemove r b := rfl

theorem syncBall_meshId (b : Ball) : (syncBall b).meshId = b.meshId := rfl

theorem syncBall_bodyId (b : Ball) : (syncBall b).bodyId = b.bodyId := rfl

theorem take_set_self {α : Type*} (l : List α) (n : Nat) (a : α) :
    (l.set n a).take n = l.take n := by
  rw [List.set_take, List.set_eq_of_length_le]
  rw [List.length_take]
  exact Nat.min_le_left _ _

theorem drop_set_self {α : Type*} (l : List α) (n : Nat) (a : α) (h : n < l.length) :
    (l.set n a).drop n = a :: l.drop (n + 1) := by
  rw [List.drop_set, if_neg (Nat.lt_irrefl n), Nat.sub_self,
    List.drop_eq_getElem_cons h, List.set_cons_zero]

theorem eraseIdx_set_self {α : Type*} (l : List α) (n : Nat) (a : α) :
    (l.set n a).eraseIdx n = l.take n ++ l.drop (n + 1) := by
  rw [List.eraseIdx_eq_take_drop_succ, take_set_self,
    List.drop_set, if_pos (Nat.lt_succ_self n)]

/-- One loop iteration at a valid index `n`, written without the
intermediate `let`: either the ball is removed (all three removals at once,
with the remaining list being the splice of index `n`) or only the mesh is
synced in place. -/
theorem animateTickAt_eq (s : GravityScene) (n : Nat) (h : n < s.balls.length) :
    animateTickAt s n =
      if shouldRemove s.ballRadius s.balls[n] then
        { s with
          sceneMeshes := s.sceneMeshes.erase (s.balls[n]).meshId
          worldBodies := s.worldBodies.erase (s.balls[n]).bodyId
          balls := s.balls.take n ++ s.balls.drop (n + 1) }
      else
        { s with balls := s.balls.set n (syncBall s.balls[n]) } := by
  unfold animateTickAt
  rw [List.getElem?_eq_getElem h]
  dsimp only
  rw [shouldRemove_syncBall, syncBall_meshId, syncBall_bodyId, eraseIdx_set_self]

set_option maxRecDepth 8192 in
/-- Characterisation of the back-to-front loop over the first `n` indices:
the surviving balls are the synced versions of those that fail the removal
test (followed by the untouched tail), and the scene and world handle lists
lose exactly the handles of the balls that pass it. -/
theorem animateLoop_spec (n : Nat) (s : GravityScene) (h : n ≤ s.balls.length) :
    animateLoop s n =
      { s with
        balls := ((s.balls.take n).map syncBall).filter
            (fun b => !shouldRemove s.ballRadius b) ++ s.balls.drop n
        sceneMeshes := removeHandles Ball.meshId
            ((s.balls.take n).filter (shouldRemove s.ballRadius)) s.sceneMeshes
        worldBodies := removeHandles Ball.bodyId
            ((s.balls.take n).filter (shouldRemove s.ballRadius)) s.worldBodies } := by
  induction n generalizing s with
  | zero => simp [animateLoop, removeHandles]
  | succ n ih =>
    have hn : n < s.balls.length := Nat.lt_of_succ_le h
    have htake : (s.balls.take n).length = n := by
      rw [List.length_take]; exact Nat.min_eq_left (Nat.le_of_lt hn)
    have htakes : s.balls.take (n + 1) = s.balls.take n ++ [s.balls[n]] := by
      rw [List.take_succ, List.getElem?_eq_getElem hn]; rfl
    show animateLoop (animateTickAt s n) n = _
    rw [animateTickAt_eq s n hn]
    by_cases hrem : shouldRemove s.ballRadius s.balls[n] = true
    · rw [if_pos hrem]
      rw [ih _ (by
        simp only [List.length_append, htake, List.length_drop]
        omega)]
      have h1 : (s.balls.take n ++ s.balls.drop (n + 1)).take n = s.balls.take n :=
        List.take_left' htake
      have h2 : (s.balls.take n ++ s.balls.drop (n + 1)).drop n = s.balls.drop (n + 1) :=
        List.drop_left' htake
      rw [GravityScene.mk.injEq]
      refine ⟨rfl, rfl, rfl, rfl, ?_, rfl, rfl, ?_, rfl, rfl, rfl, rfl, rfl, rfl, ?_, rfl⟩
      · rw [h1, htakes, List.filter_append]
        simp [hrem, removeHandles_append_singleton]
      · rw [h1, htakes, List.filter_append]
        simp [hrem, removeHandles_append_singleton]
      · rw [h1, h2, htakes, List.map_append, List.filter_append]
        simp [shouldRemove_syncBall, hrem]
    · rw [if_neg hrem]
      rw [ih _ (by simpa using Nat.le_of_lt hn)]
      have hne : shouldRemove s.ballRadius s.balls[n] = false := by
        simpa using hrem
      rw [GravityScene.mk.injEq]
      refine ⟨rfl, rfl, rfl, rfl, ?_, rfl, rfl, ?_, rfl, rfl, rfl, rfl, rfl, rfl, ?_, rfl⟩
      · rw [take_set_self, htakes, List.filter_append]
        simp [hne]
      · rw [take_set_self, htakes, List.filter_append]
        simp [hne]
      · rw [take_set_self, drop_set_self _ _ _ hn, htakes, List.map_append,
          List.filter_append]
        simp [shouldRemove_syncBall, hne]

/-- Characterisation of a full `animate` call: every ball is stepped by the
external physics update and synced exactly once; the surviving list is the
filter of the stepped-and-synced list by the negated removal test, and the
handle lists lose exactly the handles of the removed balls. -/
theorem animate_spec (step : BodyState → BodyState) (s : GravityScene) :
    animate step s =
      { s with
        balls := (s.balls.map fun b => syncBall (stepBall step b)).filter
            (fun b => !shouldRemove s.ballRadius b)
        sceneMeshes := removeHandles Ball.meshId
            ((s.balls.map (stepBall step)).filter (shouldRemove s.ballRadius))
            s.sceneMeshes
        worldBodies := removeHandles Ball.bodyId
            ((s.balls.map (stepBall step)).filter (shouldRemove s.ballRadius))
            s.worldBodies } := by
  unfold animate
  rw [animateLoop_spec _ _ (Nat.le_refl _)]
  simp only [stepWorld, List.take_length, List.drop_length, List.append_nil,
    List.map_map]
  rfl

theorem mem_of_mem_removeHandles (f : Ball → Nat) (rem : List Ball) (l : List Nat)
    (a : Nat) : a ∈ removeHandles f rem l → a ∈ l := by
  induction rem with
  | nil => exact id
  | cons r rest ih => exact fun h => ih (List.mem_of_mem_erase h)

theorem nodup_removeHandles (f : Ball → Nat) (rem : List Ball) (l : List Nat)
    (hl : l.Nodup) : (removeHandles f rem l).Nodup := by
  induction rem with
  | nil => exact hl
  | cons r rest ih => exact List.Nodup.erase _ ih

theorem not_mem_removeHandles (f : Ball → Nat) (rem : List Ball) (l : List Nat)
    (hl : l.Nodup) (b : Ball) (hb : b ∈ rem) : f b ∉ removeHandles f rem l := by
  induction rem with
  | nil => cases hb
  | cons r rest ih =>
    rcases List.mem_cons.mp hb with h | h
    · subst h
      exact List.Nodup.not_mem_erase (nodup_removeHandles f rest l hl)
    · exact fun hmem => ih h (List.mem_of_mem_erase hmem)

theorem mem_removeHandles (f : Ball → Nat) (rem : List Ball) (l : List Nat)
    (a : Nat) (ha : a ∈ l) (hne : ∀ b ∈ rem, f b ≠ a) :
    a ∈ removeHandles f rem l := by
  induction rem with
  | nil => exact ha
  | cons r rest ih =>
    refine (List.mem_erase_of_ne ?_).mpr (ih fun b hb => hne b (List.mem_cons_of_mem _ hb))
    exact (hne r (List.mem_cons_self r rest)).symm

/-- A ball whose post-step state passes the removal test leaves no handle
in the surviving active collection (no remaining ball carries its mesh
id). -/
theorem removedBall_not_in_balls (step : BodyState → BodyState) (s : GravityScene)
    (hmesh : (s.balls.map Ball.meshId).Nodup) (b : Ball)
    (hb : b ∈ (s.balls.map (stepBall step)).filter (shouldRemove s.ballRadius)) :
    ∀ b2 ∈ (animate step s).balls, b2.meshId ≠ b.meshId := by
  rw [animate_spec]
  intro b2 hb2 heq
  obtain ⟨hb2m, hq⟩ := List.mem_filter.mp hb2
  obtain ⟨b0, hb0, rfl⟩ := List.mem_map.mp hb2m
  obtain ⟨hbm, hp⟩ := List.mem_filter.mp hb
  obtain ⟨b1, hb1, rfl⟩ := List.mem_map.mp hbm
  have hb01 : b0 = b1 := List.inj_on_of_nodup_map hmesh hb0 hb1 heq
  subst hb01
  rw [shouldRemove_syncBall] at hq
  rw [hp] at hq
  exact absurd hq (by simp)

/-- A ball whose post-step state passes the removal test has its mesh handle
erased from the scene. -/
theorem removedBall_not_in_scene (step : BodyState → BodyState) (s : GravityScene)
    (hscene : s.sceneMeshes.Nodup) (b : Ball)
    (hb : b ∈ (s.balls.map (stepBall step)).filter (shouldRemove s.ballRadius)) :
    b.meshId ∉ (animate step s).sceneMeshes := by
  rw [animate_spec]
  exact not_mem_removeHandles Ball.meshId _ _ hscene b hb

/-- A ball whose post-step state passes the removal test has its body handle
erased from the world. -/
theorem removedBall_not_in_world (step : BodyState → BodyState) (s : GravityScene)
    (hworld : s.worldBodies.Nodup) (b : Ball)
    (hb : b ∈ (s.balls.map (stepBall step)).filter (shouldRemove s.ballRadius)) :
    b.bodyId ∉ (animate step s).worldBodies := by
  rw [animate_spec]
  exact not_mem_removeHandles Ball.bodyId _ _ hworld b hb

/-- A ball whose post-step state fails the removal test survives the tick:
its synced version is in the post-tick collection. -/
theorem keptBall_in_balls (step : BodyState → BodyState) (s : GravityScene)
    (b : Ball) (hb : b ∈ s.balls.map (stepBall step))
    (hkeep : shouldRemove s.ballRadius b = false) :
    syncBall b ∈ (animate step s).balls := by
  rw [animate_spec]
  obtain ⟨b0, hb0, rfl⟩ := List.mem_map.mp hb
  refine List.mem_filter.mpr ⟨List.mem_map.mpr ⟨b0, hb0, rfl⟩, ?_⟩
  rw [shouldRemove_syncBall, hkeep]
  rfl

/-- The operation `addBall` written as one structure update (the two `let`s of the source
inlined). -/
theorem addBall_eq (s : GravityScene) :
    addBall s =
      { s with
        sceneMeshes := s.sceneMeshes ++ [s.nextId]
        worldBodies := s.worldBodies ++ [s.nextId + 1]
        balls := s.balls ++
          [{ meshId := s.nextId
             mesh := { position := Vec3.zero, quaternion := Quat.identity }
             bodyId := s.nextId + 1
             body := { position := ⟨0, 8, 0⟩, quaternion := Quat.identity,
                       velocity := Vec3.zero, mass := 5, linearDamping := 31/100,
                       radius := s.ballRadius, material := s.ballMaterial }
             done := false }]
        nextId := s.nextId + 2 } := rfl

theorem nodup_append_singleton {α : Type*} {l : List α} {a : α}
    (hl : l.Nodup) (ha : a ∉ l) : (l ++ [a]).Nodup := by
  rw [List.nodup_append]
  exact ⟨hl, List.nodup_singleton a, by simpa [List.disjoint_singleton] using ha⟩

theorem handleInvariant_init (w h g : ℚ) : HandleInvariant (init w h g) := by
  have hb : (init w h g).balls = [] := rfl
  have hs : (init w h g).sceneMeshes = [0, 1] := rfl
  have hw : (init w h g).worldBodies = [2] := rfl
  have hn : (init w h g).nextId = 3 := rfl
  unfold HandleInvariant
  simp only [hb, hs, hw, hn]
  decide

theorem handleInvariant_addBall (s : GravityScene) (hinv : HandleInvariant s) :
    HandleInvariant (addBall s) := by
  obtain ⟨h1, h2, h3, h4, h5, h6, h7, h8, h9, h10⟩ := hinv
  have hfresh1 : s.nextId ∉ s.sceneMeshes := fun hm => absurd (h9 _ hm) (lt_irrefl _)
  have hfresh2 : s.nextId + 1 ∉ s.worldBodies := fun hm => by
    have := h10 _ hm; omega
  have hfreshb1 : s.nextId ∉ s.balls.map Ball.meshId := by
    intro hm
    obtain ⟨b, hb, he⟩ := List.mem_map.mp hm
    exact hfresh1 (he ▸ h5 b hb)
  have hfreshb2 : s.nextId + 1 ∉ s.balls.map Ball.bodyId := by
    intro hm
    obtain ⟨b, hb, he⟩ := List.mem_map.mp hm
    exact hfresh2 (he ▸ h6 b hb)
  rw [addBall_eq]
  refine ⟨?_, ?_, ?_, ?_, ?_, ?_, ?_, ?_, ?_, ?_⟩
  · rw [List.map_append]
    exact nodup_append_singleton h1 hfreshb1
  · rw [List.map_append]
    exact nodup_append_singleton h2 hfreshb2
  · exact nodup_append_singleton h3 hfresh1
  · exact nodup_append_singleton h4 hfresh2
  · intro b hb
    rcases List.mem_append.mp hb with hb | hb
    · exact List.mem_append_left _ (h5 b hb)
    · rw [List.mem_singleton.mp hb]
      exact List.mem_append_right _ (List.mem_singleton.mpr rfl)
  · intro b hb
    rcases List.mem_append.mp hb with hb | hb
    · exact List.mem_append_left _ (h6 b hb)
    · rw [List.mem_singleton.mp hb]
      exact List.mem_append_right _ (List.mem_singleton.mpr rfl)
  · intro m hm
    rcases List.mem_append.mp hm with hm | hm
    · rcases h7 m hm with h | h | ⟨b, hb, he⟩
      · exact Or.inl h
      · exact Or.inr (Or.inl h)
      · exact Or.inr (Or.inr ⟨b, List.mem_append_left _ hb, he⟩)
    · refine Or.inr (Or.inr ⟨_, List.mem_append_right _ (List.mem_singleton.mpr rfl), ?_⟩)
      exact (List.mem_singleton.mp hm).symm
  · intro m hm
    rcases List.mem_append.mp hm with hm | hm
    · rcases h8 m hm with h | ⟨b, hb, he⟩
      · exact Or.inl h
      · exact Or.inr ⟨b, List.mem_append_left _ hb, he⟩
    · refine Or.inr ⟨_, List.mem_append_right _ (List.mem_singleton.mpr rfl), ?_⟩
      exact (List.mem_singleton.mp hm).symm
  · intro m hm
    show m < s.nextId + 2
    rcases List.mem_append.mp hm with hm | hm
    · have := h9 m hm; omega
    · have := List.mem_singleton.mp hm; omega
  · intro m hm
    show m < s.nextId + 2
    rcases List.mem_append.mp hm with hm | hm
    · have := h10 m hm; omega
    · have := List.mem_singleton.mp hm; omega

theorem handleInvariant_animate (step : BodyState → BodyState) (s : GravityScene)
    (hinv : HandleInvariant s) : HandleInvariant (animate step s) := by
  obtain ⟨h1, h2, h3, h4, h5, h6, h7, h8, h9, h10⟩ := hinv
  have hmesh_eq : (s.balls.map fun b => syncBall (stepBall step b)).map Ball.meshId
      = s.balls.map Ball.meshId := by
    rw [List.map_map]; rfl
  have hbody_eq : (s.balls.map fun b => syncBall (stepBall step b)).map Ball.bodyId
      = s.balls.map Ball.bodyId := by
    rw [List.map_map]; rfl
  rw [animate_spec]
  refine ⟨?_, ?_, ?_, ?_, ?_, ?_, ?_, ?_, ?_, ?_⟩
  · refine List.Nodup.sublist ?_ (hmesh_eq ▸ h1)
    exact List.Sublist.map _ (List.filter_sublist _)
  · refine List.Nodup.sublist ?_ (hbody_eq ▸ h2)
    exact List.Sublist.map _ (List.filter_sublist _)
  · exact nodup_removeHandles _ _ _ h3
  · exact nodup_removeHandles _ _ _ h4
  · intro b hb
    obtain ⟨hbm, hq⟩ := List.mem_filter.mp hb
    obtain ⟨b0, hb0, rfl⟩ := List.mem_map.mp hbm
    refine mem_removeHandles _ _ _ _ (h5 b0 hb0) ?_
    intro r hr he
    obtain ⟨hrm, hp⟩ := List.mem_filter.mp hr
    obtain ⟨b1, hb1, rfl⟩ := List.mem_map.mp hrm
    have : b1 = b0 := List.inj_on_of_nodup_map h1 hb1 hb0 he
    subst this
    rw [shouldRemove_syncBall, hp] at hq
    exact absurd hq (by simp)
  · intro b hb
    obtain ⟨hbm, hq⟩ := List.mem_filter.mp hb
    obtain ⟨b0, hb0, rfl⟩ := List.mem_map.mp hbm
    refine mem_removeHandles _ _ _ _ (h6 b0 hb0) ?_
    intro r hr he
    obtain ⟨hrm, hp⟩ := List.mem_filter.mp hr
    obtain ⟨b1, hb1, rfl⟩ := List.mem_map.mp hrm
    have : b1 = b0 := List.inj_on_of_nodup_map h2 hb1 hb0 he
    subst this
    rw [shouldRemove_syncBall, hp] at hq
    exact absurd hq (by simp)
  · intro m hm
    have hm0 : m ∈ s.sceneMeshes := mem_of_mem_removeHandles _ _ _ _ hm
    rcases h7 m hm0 with h | h | ⟨b, hb, he⟩
    · exact Or.inl h
    · exact Or.inr (Or.inl h)
    · by_cases hsr : shouldRemove s.ballRadius (stepBall step b) = true
      · exfalso
        have hrem : stepBall step b ∈ (s.balls.map (stepBall step)).filter
            (shouldRemove s.ballRadius) :=
          List.mem_filter.mpr ⟨List.mem_map.mpr ⟨b, hb, rfl⟩, hsr⟩
        exact not_mem_removeHandles Ball.meshId _ _ h3 _ hrem (he ▸ hm)
      · refine Or.inr (Or.inr ⟨syncBall (stepBall step b), ?_, he⟩)
        refine List.mem_filter.mpr ⟨List.mem_map.mpr ⟨b, hb, rfl⟩, ?_⟩
        rw [shouldRemove_syncBall]
        simp [Bool.not_eq_true] at hsr
        rw [hsr]
        rfl
  · intro m hm
    have hm0 : m ∈ s.worldBodies := mem_of_mem_removeHandles _ _ _ _ hm
    rcases h8 m hm0 with h | ⟨b, hb, he⟩
    · exact Or.inl h
    · by_cases hsr : shouldRemove s.ballRadius (stepBall step b) = true
      · exfalso
        have hrem : stepBall step b ∈ (s.balls.map (stepBall step)).filter
            (shouldRemove s.ballRadius) :=
          List.mem_filter.mpr ⟨List.mem_map.mpr ⟨b, hb, rfl⟩, hsr⟩
        exact not_mem_removeHandles Ball.bodyId _ _ h4 _ hrem (he ▸ hm)
      · refine Or.inr ⟨syncBall (stepBall step b), ?_, he⟩
        refine List.mem_filter.mpr ⟨List.mem_map.mpr ⟨b, hb, rfl⟩, ?_⟩
        rw [shouldRemove_syncBall]
        simp [Bool.not_eq_true] at hsr
        rw [hsr]
        rfl
  · intro m hm
    exact h9 m (mem_of_mem_removeHandles _ _ _ _ hm)
  · intro m hm
    exact h10 m (mem_of_mem_removeHandles _ _ _ _ hm)

theorem handleInvariant_gravityInputChange (s : GravityScene) (parsed : Option ℚ)
    (hinv : HandleInvariant s) : HandleInvariant (gravityInputChange s parsed) := by
  rcases parsed with _ | v
  · exact hinv
  · exact hinv

theorem exScene_balls : exScene.balls = [exBall] := rfl

theorem handleInvariant_onWindowResize (s : GravityScene) (w h : ℚ)
    (hinv : HandleInvariant s) : HandleInvariant (onWindowResize s w h) := hinv

end GravityScene

/-- Bridge between the source comparison `velocity.length() < 0.1` over the
reals and its embedding `lengthSq < 1/100`: because the length is the
nonnegative square root of `lengthSq`, the two are equivalent. -/
theorem lengthSq_lt_iff_length_lt (v : Vec3) :
    Real.sqrt (v.lengthSq : ℝ) < 1/10 ↔ v.lengthSq < 1/100 := by
  rw [show ((1:ℝ)/10) = Real.sqrt ((1/100 : ℚ) : ℝ) by
        rw [show (((1:ℚ)/100 : ℚ) : ℝ) = (1/10 : ℝ) ^ 2 by push_cast; ring,
          Real.sqrt_sq (by norm_num)]]
  rw [Real.sqrt_lt_sqrt_iff_of_pos (by norm_num)]
  exact_mod_cast Iff.rfl

open GravityScene

/-- C1: during a tick, every active ball whose post-step velocity magnitude
is below 0.1 (embedded as squared speed below 1/100) and whose height is at
most 2 (= radius 1 + ground height 1, with `ballRadius = 1`) is removed from
the active collection (no surviving ball carries its mesh id), its mesh
leaves the scene and its body leaves the world, all within that same tick;
a post-step ball failing either condition survives the tick (its synced
version stays in the collection). -/
theorem settledBall_removed_within_tick (step : BodyState → BodyState)
    (s : GravityScene) (hrad : s.ballRadius = 1)
    (hdone : ∀ b ∈ s.balls, b.done = false)
    (hmesh : (s.balls.map Ball.meshId).Nodup)
    (hscene : s.sceneMeshes.Nodup) (hworld : s.worldBodies.Nodup)
    (b : Ball) (hb : b ∈ s.balls.map (stepBall step)) :
    ((b.body.velocity.lengthSq < 1/100 ∧ b.body.position.y ≤ 2) →
      (∀ b2 ∈ (animate step s).balls, b2.meshId ≠ b.meshId) ∧
      b.meshId ∉ (animate step s).sceneMeshes ∧
      b.bodyId ∉ (animate step s).worldBodies) ∧
    (¬(b.body.velocity.lengthSq < 1/100 ∧ b.body.position.y ≤ 2) →
      syncBall b ∈ (animate step s).balls) := by
  have hbdone : b.done = false := by
    obtain ⟨b0, hb0, rfl⟩ := List.mem_map.mp hb
    exact hdone b0 hb0
  constructor
  · rintro ⟨hv, hy⟩
    have hv2 : b.body.velocity.lengthSq < (100 : ℚ)⁻¹ := by rwa [one_div] at hv
    have hy2 : b.body.position.y ≤ s.ballRadius + 1 := by rw [hrad]; linarith
    have hp : shouldRemove s.ballRadius b = true := by
      simp [shouldRemove, hbdone, hv2, hy2]
    have hbrem : b ∈ (s.balls.map (stepBall step)).filter (shouldRemove s.ballRadius) :=
      List.mem_filter.mpr ⟨hb, hp⟩
    exact ⟨removedBall_not_in_balls step s hmesh b hbrem,
      removedBall_not_in_scene step s hscene b hbrem,
      removedBall_not_in_world step s hworld b hbrem⟩
  · intro hfail
    have hp : shouldRemove s.ballRadius b = false := by
      rcases not_and_or.mp hfail with hf | hf
      · have hf2 : ¬b.body.velocity.lengthSq < (100 : ℚ)⁻¹ := by rwa [one_div] at hf
        simp [shouldRemove, hf2]
      · have hyf : ¬b.body.position.y ≤ s.ballRadius + 1 := by
          rw [hrad]; intro hle; exact hf (by linarith)
        simp [shouldRemove, hyf]
    exact keptBall_in_balls step s b hb hp

/-- Witness for C1 on a concrete scene: one ball dropped in the Earth scene,
with an external step that lands it at height 3/2 with zero velocity; after
the tick neither its mesh handle nor its body handle remains. -/
theorem settledBall_removed_within_tick_witness :
    (stepBall exStepSettle exBall).meshId ∉
        (animate exStepSettle exScene).sceneMeshes ∧
    (stepBall exStepSettle exBall).bodyId ∉
        (animate exStepSettle exScene).worldBodies := by
  have hcond : (stepBall exStepSettle exBall).body.velocity.lengthSq < 1/100 ∧
      (stepBall exStepSettle exBall).body.position.y ≤ 2 := by
    constructor <;>
      norm_num [stepBall, exStepSettle, exBall, Vec3.lengthSq, Vec3.zero]
  have h := settledBall_removed_within_tick exStepSettle exScene rfl
    (by decide) (by decide) (by decide) (by decide)
    (stepBall exStepSettle exBall) (by simp [exScene_balls])
  exact ⟨(h.1 hcond).2.1, (h.1 hcond).2.2⟩

/-- C2: the handle invariant (each active ball owns exactly one scene mesh
and one world body, all handles distinct, present, non-orphaned and below
the fresh-id counter) holds after construction and is preserved by every
operation; moreover the ids a future `addBall` would use are fresh (so a
removed ball can never re-enter the collection), and removal in `animate`
is atomic: a removed ball simultaneously leaves the collection, the scene
and the world. -/
theorem handle_invariant_preserved (w h g w2 h2 : ℚ) (parsed : Option ℚ)
    (step : BodyState → BodyState) (s : GravityScene)
    (hinv : HandleInvariant s) :
    HandleInvariant (init w h g) ∧
    HandleInvariant (addBall s) ∧
    HandleInvariant (animate step s) ∧
    HandleInvariant (gravityInputChange s parsed) ∧
    HandleInvariant (onWindowResize s w2 h2) ∧
    (∀ b ∈ s.balls, b.meshId ≠ s.nextId ∧ b.bodyId ≠ s.nextId + 1) ∧
    (∀ b ∈ (s.balls.map (stepBall step)).filter (shouldRemove s.ballRadius),
      (∀ b2 ∈ (animate step s).balls, b2.meshId ≠ b.meshId) ∧
      b.meshId ∉ (animate step s).sceneMeshes ∧
      b.bodyId ∉ (animate step s).worldBodies) := by
  obtain ⟨hI1, hI2, hI3, hI4, hI5, hI6, hI7, hI8, hI9, hI10⟩ := hinv
  have hinv2 : HandleInvariant s := ⟨hI1, hI2, hI3, hI4, hI5, hI6, hI7, hI8, hI9, hI10⟩
  refine ⟨handleInvariant_init w h g, handleInvariant_addBall s hinv2,
    handleInvariant_animate step s hinv2,
    handleInvariant_gravityInputChange s parsed hinv2,
    handleInvariant_onWindowResize s w2 h2 hinv2, ?_, ?_⟩
  · intro b hb
    constructor
    · intro he
      exact absurd (hI9 _ (he ▸ hI5 b hb)) (lt_irrefl _)
    · intro he
      have := hI10 _ (he ▸ hI6 b hb)
      omega
  · intro b hb
    exact ⟨removedBall_not_in_balls step s hI1 b hb,
      removedBall_not_in_scene step s hI3 b hb,
      removedBall_not_in_world step s hI4 b hb⟩

/-- Witness for C2: the invariant holds for the concrete one-ball Earth
scene and is preserved by adding another ball. -/
theorem handle_invariant_preserved_witness :
    HandleInvariant (addBall exScene) :=
  (handle_invariant_preserved 4 3 1 2 2 none exStepSettle exScene (by decide)).2.1

/-- C3: a gravity-control input that parses to the number `v` makes the
world gravity vector `(0, -v, 0)` and stores `v` as the gravity value; the
world then uses this vector from the next step on. -/
theorem gravity_update_numeric (s : GravityScene) (v : ℚ) :
    (gravityInputChange s (some v)).gravity = ⟨0, -v, 0⟩ ∧
    (gravityInputChange s (some v)).gravityValue = v :=
  ⟨rfl, rfl⟩

/-- C4: a gravity-control input that does not parse to a number (NaN) leaves
the whole state unchanged — the handler is a total no-op, so no error is
raised and the previous gravity persists. -/
theorem gravity_update_non_numeric (s : GravityScene) :
    gravityInputChange s none = s := rfl

/-- C5: `addBall` succeeds on every state: the collection grows by exactly
one, the previous balls are untouched (they form a prefix), the new ball
carries a fresh mesh handle in the scene and a fresh body handle in the
world, and its body is spawned at `(0, 8, 0)` with radius 1, mass 5, linear
damping 0.31 and the shared ball material of the scene. -/
theorem addBall_always_succeeds (s : GravityScene) (hrad : s.ballRadius = 1)
    (hscene : ∀ m ∈ s.sceneMeshes, m < s.nextId)
    (hworld : ∀ m ∈ s.worldBodies, m < s.nextId) :
    (addBall s).balls.length = s.balls.length + 1 ∧
    (addBall s).balls = s.balls ++
      [{ meshId := s.nextId
         mesh := { position := Vec3.zero, quaternion := Quat.identity }
         bodyId := s.nextId + 1
         body := { position := ⟨0, 8, 0⟩, quaternion := Quat.identity,
                   velocity := Vec3.zero, mass := 5, linearDamping := 31/100,
                   radius := 1, material := s.ballMaterial }
         done := false }] ∧
    (addBall s).sceneMeshes = s.sceneMeshes ++ [s.nextId] ∧
    (addBall s).worldBodies = s.worldBodies ++ [s.nextId + 1] ∧
    s.nextId ∉ s.sceneMeshes ∧
    (s.nextId + 1) ∉ s.worldBodies := by
  refine ⟨by simp [addBall_eq], by rw [addBall_eq, hrad], rfl, rfl, ?_, ?_⟩
  · intro hmem
    exact absurd (hscene _ hmem) (lt_irrefl _)
  · intro hmem
    have := hworld _ hmem
    omega

/-- Witness for C5 on the concrete one-ball Earth scene. -/
theorem addBall_always_succeeds_witness :
    (addBall exScene).balls.length = exScene.balls.length + 1 :=
  (addBall_always_succeeds exScene (by decide) (by decide) (by decide)).1

/-- C6: the back-to-front in-place traversal of `animate` is equivalent to
mapping the step-and-sync over the starting collection (every ball present
at the start of the tick is visited and synced exactly once) followed by
filtering out exactly the balls that meet the removal heuristic — no ball
is skipped and no index shift loses an element. -/
theorem animate_reverse_traversal_safe (step : BodyState → BodyState)
    (s : GravityScene) :
    (animate step s).balls
      = (s.balls.map fun b => syncBall (stepBall step b)).filter
          (fun b => !shouldRemove s.ballRadius b) := by
  rw [animate_spec]

/-- C7: every ball still in the collection after a tick has its mesh
position and orientation equal to its body position and orientation; in
the loop body the sync is performed first, so the removal test and the
final render only ever see synced balls. -/
theorem animate_syncs_surviving_balls (step : BodyState → BodyState)
    (s : GravityScene) (b : Ball) (hb : b ∈ (animate step s).balls) :
    b.mesh.position = b.body.position ∧ b.mesh.quaternion = b.body.quaternion := by
  rw [animate_spec] at hb
  obtain ⟨hbm, _⟩ := List.mem_filter.mp hb
  obtain ⟨b0, _, rfl⟩ := List.mem_map.mp hbm
  exact ⟨rfl, rfl⟩

/-- Witness for C7: the flying ball survives the tick and its mesh transform
equals its body transform. -/
theorem animate_syncs_surviving_balls_witness :
    (syncBall (stepBall exStepFly exBall)).mesh.position =
      (syncBall (stepBall exStepFly exBall)).body.position ∧
    (syncBall (stepBall exStepFly exBall)).mesh.quaternion =
      (syncBall (stepBall exStepFly exBall)).body.quaternion := by
  have hkeep : shouldRemove exScene.ballRadius (stepBall exStepFly exBall) = false := by
    have hv : ¬(stepBall exStepFly exBall).body.velocity.lengthSq < (100 : ℚ)⁻¹ := by
      norm_num [stepBall, exStepFly, exBall, Vec3.lengthSq]
    simp [shouldRemove, hv]
  exact animate_syncs_surviving_balls exStepFly exScene
    (syncBall (stepBall exStepFly exBall))
    (keptBall_in_balls exStepFly exScene _ (by simp [exScene_balls]) hkeep)

/-- C8: the resize handler sets the camera aspect to exactly `w / h` and the
renderer size to `(w, h)`, and changes nothing else: gravity, balls, handle
lists, ground, radius, contact materials and the id counter are untouched. -/
theorem resize_updates_only_viewport (s : GravityScene) (w h : ℚ) :
    (onWindowResize s w h).cameraAspect = w / h ∧
    (onWindowResize s w h).rendererWidth = w ∧
    (onWindowResize s w h).rendererHeight = h ∧
    (onWindowResize s w h).gravity = s.gravity ∧
    (onWindowResize s w h).gravityValue = s.gravityValue ∧
    (onWindowResize s w h).balls = s.balls ∧
    (onWindowResize s w h).sceneMeshes = s.sceneMeshes ∧
    (onWindowResize s w h).worldBodies = s.worldBodies ∧
    (onWindowResize s w h).groundMeshY = s.groundMeshY ∧
    (onWindowResize s w h).groundBodyY = s.groundBodyY ∧
    (onWindowResize s w h).ballRadius = s.ballRadius ∧
    (onWindowResize s w h).contactMaterials = s.contactMaterials ∧
    (onWindowResize s w h).solverIterations = s.solverIterations ∧
    (onWindowResize s w h).nextId = s.nextId :=
  ⟨rfl, rfl, rfl, rfl, rfl, rfl, rfl, rfl, rfl, rfl, rfl, rfl, rfl, rfl⟩

/-- C9: every ball in the active collection has `done = false`: this holds
after construction and is preserved by every operation (the flag is only
set to `true` in the same iteration that splices the ball out, so a settled
ball is never observable in the collection); consequently the `!ball.done`
guard is redundant for listed balls — for a ball with `done = false` the
removal test reduces to the two physical conditions. -/
theorem active_balls_not_done (w h g w2 h2 : ℚ) (parsed : Option ℚ)
    (step : BodyState → BodyState) (s : GravityScene) (r : ℚ)
    (hact : AllActive s) (b : Ball) (hbdone : b.done = false) :
    AllActive (init w h g) ∧
    AllActive (addBall s) ∧
    AllActive (animate step s) ∧
    AllActive (gravityInputChange s parsed) ∧
    AllActive (onWindowResize s w2 h2) ∧
    shouldRemove r b
      = (decide (b.body.velocity.lengthSq < 1/100) &&
         decide (b.body.position.y ≤ r + 1)) := by
  refine ⟨?_, ?_, ?_, ?_, hact, ?_⟩
  · intro b2 hb2
    have : (init w h g).balls = [] := rfl
    rw [this] at hb2
    cases hb2
  · intro b2 hb2
    rw [addBall_eq] at hb2
    rcases List.mem_append.mp hb2 with hb2 | hb2
    · exact hact b2 hb2
    · rw [List.mem_singleton.mp hb2]
  · intro b2 hb2
    rw [animate_spec] at hb2
    obtain ⟨hbm, _⟩ := List.mem_filter.mp hb2
    obtain ⟨b0, hb0, rfl⟩ := List.mem_map.mp hbm
    exact hact b0 hb0
  · rcases parsed with _ | v
    · exact hact
    · exact hact
  · simp [shouldRemove, hbdone]

/-- Witness for C9: after adding a second ball to the concrete Earth scene
every listed ball still has `done = false`. -/
theorem active_balls_not_done_witness :
    AllActive (addBall exScene) :=
  (active_balls_not_done 4 3 1 2 2 none exStepSettle exScene 1 (by decide)
    exBall (by decide)).2.1

/-- C10: the world gravity vector equals `(0, -gravityValue, 0)` for the
stored gravity value (in particular its x and z components are zero): this
holds after construction and is preserved by every operation, because the
input handler overwrites the whole vector rather than only the downward
component. -/
theorem gravity_vector_matches_gravityValue (w h g w2 h2 : ℚ)
    (parsed : Option ℚ) (step : BodyState → BodyState) (s : GravityScene)
    (hal : GravityAligned s) :
    GravityAligned (init w h g) ∧
    GravityAligned (addBall s) ∧
    GravityAligned (animate step s) ∧
    GravityAligned (gravityInputChange s parsed) ∧
    GravityAligned (onWindowResize s w2 h2) ∧
    (gravityInputChange s parsed).gravity.x = 0 ∧
    (gravityInputChange s parsed).gravity.z = 0 := by
  have hgic : GravityAligned (gravityInputChange s parsed) := by
    rcases parsed with _ | v
    · exact hal
    · exact rfl
  refine ⟨rfl, hal, ?_, hgic, hal, ?_, ?_⟩
  · rw [GravityAligned, animate_spec]
    exact hal
  · rw [hgic]
  · rw [hgic]

/-- Witness for C10: the alignment holds after a tick of the concrete Earth
scene. -/
theorem gravity_vector_matches_gravityValue_witness :
    GravityAligned (animate exStepSettle exScene) :=
  (gravity_vector_matches_gravityValue 4 3 1 2 2 (some 5) exStepSettle exScene
    rfl).2.2.1

end GravityApp
